import Mathlib

/-!
Verification of the sci-fi-scraper crawl engine (shallow embedding).

The definitions below embed, in Lean, the Python modules of the
`sci-fi-scraper` repository:

* `src/config.py`    — vocabulary tables and thresholds (`ScraperConfig`);
* `src/classifier.py` — `ContentClassifier.is_sci_fi_technology`,
  `is_excluded_content`, `is_relevant_subcategory`;
* `src/models.py`    — the `TechEntry` dataclass with its `__post_init__`;
* `src/utils.py`     — `CheckpointManager.save_checkpoint` / `load_checkpoint`
  and `DataExporter.generate_statistics`;
* `src/scraper.py`   — `WikipediaScraper.process_page`, `scrape_category`,
  `scrape_all`, `load_checkpoint`.

Modelling conventions: Python `set` becomes `Finset String`; the wall clock
(`datetime.now()`) is an explicit `now : String` parameter; the MediaWiki API
is an oracle record `ApiEnv`; file contents are modelled as checkpoint values
(`FileState`), with a truncated-file state for a file that was opened for
writing but whose write did not complete; thread-pool fan-out is sequenced
(the code guards all shared state by one lock and guarantees no ordering);
Python recursion is given an explicit fuel argument so every function is
structurally recursive and computable by the kernel.  Regular expressions in
the exclusion pre-check all have the shape
`\b w1 (a|b|c) ... \b` — word-boundary-delimited, space-separated alternation
groups — and are embedded by a small matcher specialised to that shape, with
`\w` read as ASCII alphanumeric or underscore.
-/

set_option maxRecDepth 4000

namespace SciFiScraper

/-! ## String primitives

`lowerStr` embeds Python `str.lower`, `strIn needle hay` embeds
`needle in hay` (substring containment), `replaceStr` embeds
`str.replace` (all occurrences), `joinSpace` embeds `' '.join`. -/

def lowerStr (s : String) : String := ⟨s.data.map Char.toLower⟩

def containsSub (needle : List Char) : List Char → Bool
  | [] => needle.isEmpty
  | c :: t => needle.isPrefixOf (c :: t) || containsSub needle t

def strIn (needle hay : String) : Bool := containsSub needle.data hay.data

def replaceAllAux (pat rep : List Char) : Nat → List Char → List Char
  | _, [] => []
  | 0, l => l
  | fuel + 1, c :: t =>
    if pat.isPrefixOf (c :: t) then rep ++ replaceAllAux pat rep fuel ((c :: t).drop pat.length)
    else c :: replaceAllAux pat rep fuel t

def replaceStr (s pat rep : String) : String :=
  if pat.isEmpty then s else ⟨replaceAllAux pat.data rep.data s.data.length s.data⟩

def joinSpace (l : List String) : String := String.intercalate " " l

/-! ## A matcher for the exclusion regexes

Every pattern in `ScraperConfig.EXCLUSION_PATTERNS` is a `\b`-delimited
sequence of space-separated alternation groups over literal words, e.g.
`\b(portrayed|played|voiced) by\b`.  A pattern is represented as the list of
its groups, each group the list of its alternative words.  `searchPat`
embeds `re.search pattern text is not None` for patterns of this shape. -/

def isWordChar (c : Char) : Bool := c.isAlphanum || c == '_'

def wordBoundaryAfter : List Char → Bool
  | [] => true
  | c :: _ => !isWordChar c

def matchPatAt : List (List String) → List Char → Bool
  | [], _ => true
  | [g], l => g.any fun w => w.data.isPrefixOf l && wordBoundaryAfter (l.drop w.data.length)
  | g :: gs, l =>
    g.any fun w =>
      w.data.isPrefixOf l &&
        match l.drop w.data.length with
        | ' ' :: rest => matchPatAt gs rest
        | _ => false

def searchAux (gs : List (List String)) : List Char → Bool → Bool
  | [], atB => atB && matchPatAt gs []
  | c :: t, atB => (atB && matchPatAt gs (c :: t)) || searchAux gs t (!isWordChar c)

def searchPat (gs : List (List String)) (text : String) : Bool := searchAux gs text.data true

/-! ## Configuration data (src/config.py, `ScraperConfig`) -/

structure TechClassifier where
  keywords : List String
  context : List String
  weight : Nat
deriving DecidableEq

def TECH_CLASSIFIERS : List (String × TechClassifier) :=
  [("weapon",
    ⟨["weapon", "gun", "rifle", "blaster", "phaser", "cannon", "sword", "blade", "bomb",
      "missile", "torpedo", "laser", "plasma", "disruptor", "armament", "firearm"],
     ["fires", "shoots", "armed", "combat", "warfare", "damage", "destructive", "explosive",
      "penetrate", "kill"], 3⟩),
   ("vehicle",
    ⟨["ship", "vessel", "craft", "fighter", "cruiser", "transport", "shuttle", "carrier",
      "destroyer", "frigate", "corvette", "dreadnought", "starship", "spacecraft"],
     ["travels", "flies", "navigates", "crew", "passengers", "pilot", "engine", "hull",
      "bridge", "propulsion"], 3⟩),
   ("device",
    ⟨["device", "gadget", "tool", "scanner", "communicator", "computer", "console",
      "terminal", "apparatus", "instrument", "detector", "analyzer"],
     ["operates", "functions", "displays", "processes", "controls", "interface", "screen",
      "data", "information"], 2⟩),
   ("robot",
    ⟨["droid", "robot", "android", "cyborg", "automaton", "mech", "mecha", "synthetic",
      "artificial"],
     ["autonomous", "programmed", "intelligence", "sentient", "mechanical", "ai",
      "artificial"], 3⟩),
   ("system",
    ⟨["system", "technology", "drive", "engine", "reactor", "generator", "shield",
      "defense", "network", "grid"],
     ["powered", "generates", "operates", "mechanism", "process", "function",
      "capability"], 2⟩),
   ("equipment",
    ⟨["armor", "suit", "equipment", "gear", "machinery", "hardware", "component",
      "apparatus"],
     ["worn", "equipped", "protective", "enhanced", "designed", "constructed"], 2⟩)]

def SCI_FI_STRONG : List String :=
  ["fictional", "science fiction", "sci-fi", "futuristic", "space", "alien", "time travel",
   "cyberpunk"]

def SCI_FI_FRANCHISES : List String :=
  ["star trek", "star wars", "battlestar galactica", "stargate", "doctor who", "firefly",
   "babylon 5", "mass effect", "halo", "dune"]

def SCI_FI_TECH_CONTEXT : List String :=
  ["spaceship", "energy weapon", "force field", "hyperdrive", "warp drive",
   "cloaking device", "transporter"]

/-- `EXCLUSION_PATTERNS['list_pages']`, i.e.
`\b(list|index|category|timeline|chronology|history) of\b`. -/
def LIST_PAGES_PAT : List (List String) :=
  [["list", "index", "category", "timeline", "chronology", "history"], ["of"]]

/-- `EXCLUSION_PATTERNS['person_patterns']`. -/
def PERSON_PATS : List (List (List String)) :=
  [[["he", "she", "they"], ["is", "was", "were", "are"]],
   [["born", "died", "birth", "death"]],
   [["actor", "actress", "character", "person", "individual"]],
   [["portrayed", "played", "voiced"], ["by"]],
   [["biography", "biographical"]]]

/-- `EXCLUSION_PATTERNS['plot_patterns']`. -/
def PLOT_PATS : List (List (List String)) :=
  [[["in"], ["the"],
    ["short", "story", "plot", "episode", "film", "movie", "book", "novel", "comic",
     "television"]],
   [["appears", "featured", "introduced"], ["in"]],
   [["storyline", "narrative", "plot"]]]

def SKIP_PATTERNS : List String :=
  ["disambiguation", "redirect", "stub", "cleanup", "maintenance", "wikipedia", "template",
   "user", "talk", "project", "portal", "navigation", "infobox"]

def BIOGRAPHICAL_PATTERNS : List String :=
  ["biography", "people", "characters", "cast", "crew", "actors", "directors", "writers",
   "producers"]

def MEDIA_PATTERNS : List String :=
  ["episodes", "seasons", "series", "films", "movies", "books", "novels", "comics"]

def TECH_PATTERNS : List String :=
  ["technology", "weapon", "device", "equipment", "vehicle", "spacecraft", "starship",
   "robot", "android", "cyborg", "computer", "system", "machinery", "apparatus", "tool",
   "gadget", "invention", "engineering", "science", "fictional", "armor", "military",
   "space", "future", "alien", "laser", "energy", "power", "transport", "communication",
   "medical"]

def MIN_CONTENT_LENGTH : Nat := 200

def MIN_CONFIDENCE_SCORE : ℚ := 1 / 4

/-! ## Classifier (src/classifier.py, `ContentClassifier`) -/

/-- The domain-relevance (`sci_fi_score`) loop of `is_sci_fi_technology`:
`+= 3` per strong indicator found in `text` or `category_text`, `+= 4` per
franchise name found in either, `+= 2` per tech-context phrase in `text`. -/
def sciFiScore (text catText : String) : Nat :=
  3 * (SCI_FI_STRONG.filter fun i => strIn i text || strIn i catText).length +
    4 * (SCI_FI_FRANCHISES.filter fun i => strIn i text || strIn i catText).length +
    2 * (SCI_FI_TECH_CONTEXT.filter fun i => strIn i text).length

/-- Per-label `type_score` of `is_sci_fi_technology`: keyword matches times
the label weight, plus context matches times 2, plus 3 when both kinds of
match occur. -/
def typeScore (text : String) (c : TechClassifier) : Nat :=
  let keyword_matches := (c.keywords.filter fun k => strIn k text).length
  let context_matches := (c.context.filter fun k => strIn k text).length
  keyword_matches * c.weight + context_matches * 2 +
    if 0 < keyword_matches ∧ 0 < context_matches then 3 else 0

/-- The `best_type`/`best_score` selection loop: start from
`("technology", 0)` and replace the current best only on a strictly larger
score, iterating the classifiers in declaration order. -/
def bestType (text : String) : String × Nat :=
  TECH_CLASSIFIERS.foldl
    (fun best tc => if best.2 < typeScore text tc.2 then (tc.1, typeScore text tc.2) else best)
    ("technology", 0)

/-- `ContentClassifier.is_sci_fi_technology`:
returns `(is_sci_fi ∧ is_tech, best_type, confidence)`. -/
def is_sci_fi_technology (title content : String) (categories : List String) :
    Bool × String × ℚ :=
  let text := lowerStr (title ++ " " ++ content)
  let category_text := lowerStr (joinSpace categories)
  let sci_fi_score := sciFiScore text category_text
  let best := bestType text
  let confidence : ℚ := min 1 ((sci_fi_score + best.2 : ℚ) / 8)
  (decide (2 ≤ sci_fi_score) && decide (2 ≤ best.2), best.1, confidence)

/-- `ContentClassifier.is_excluded_content`: list/index pages, then person
patterns, then more than two plot-pattern matches. -/
def is_excluded_content (title content : String) : Bool :=
  let text := lowerStr (title ++ " " ++ content)
  if searchPat LIST_PAGES_PAT text then true
  else if PERSON_PATS.any fun p => searchPat p text then true
  else if 2 < (PLOT_PATS.filter fun p => searchPat p text).length then true
  else false

def BIO_TECH_TERMS : List String :=
  ["technology", "weapon", "device", "equipment", "vehicle", "robot"]

def MEDIA_TECH_TERMS : List String :=
  ["technology", "weapon", "device", "equipment", "vehicle", "robot", "fictional"]

/-- `ContentClassifier.is_relevant_subcategory`. -/
def is_relevant_subcategory (category_name : String) : Bool :=
  let c := lowerStr category_name
  if SKIP_PATTERNS.any fun p => strIn p c then false
  else if (BIOGRAPHICAL_PATTERNS.any fun p => strIn p c) &&
      !(BIO_TECH_TERMS.any fun t => strIn t c) then false
  else if (MEDIA_PATTERNS.any fun p => strIn p c) &&
      !(MEDIA_TECH_TERMS.any fun t => strIn t c) then false
  else (TECH_PATTERNS.any fun p => strIn p c) || strIn "fictional" c ||
    strIn "science fiction" c

/-! ## Spec-side restatement of the classifier

`classifySpec` follows the wording of the specification: per-word additive
scores, the six-label fixed set, the strictly-highest-score winner with the
default label `"technology"` kept on ties and on an all-zero score.  It is
compared with the source embedding `is_sci_fi_technology` below. -/

def specDomainScore (text catText : String) : Nat :=
  (SCI_FI_STRONG.map fun i => if strIn i text || strIn i catText then 3 else 0).sum +
    (SCI_FI_FRANCHISES.map fun i => if strIn i text || strIn i catText then 4 else 0).sum +
    (SCI_FI_TECH_CONTEXT.map fun i => if strIn i text then 2 else 0).sum

def specLabelScore (text : String) (c : TechClassifier) : Nat :=
  (c.keywords.map fun k => if strIn k text then c.weight else 0).sum +
    (c.context.map fun k => if strIn k text then 2 else 0).sum +
    if (c.keywords.any fun k => strIn k text) && (c.context.any fun k => strIn k text)
    then 3 else 0

/-- The label whose score is strictly highest; ties keep the earlier label,
and the default `("technology", 0)` stands when every label scores zero. -/
def specBestLabel : List (String × Nat) → String × Nat
  | [] => ("technology", 0)
  | x :: rest =>
    let b := specBestLabel rest
    if b.2 ≤ x.2 ∧ 0 < x.2 then x else b

def classifySpec (title content : String) (categories : List String) : Bool × String × ℚ :=
  let text := lowerStr (title ++ " " ++ content)
  let catText := lowerStr (joinSpace categories)
  let domain := specDomainScore text catText
  let best := specBestLabel (TECH_CLASSIFIERS.map fun tc => (tc.1, specLabelScore text tc.2))
  (decide (2 ≤ domain) && decide (2 ≤ best.2), best.1,
    min 1 ((domain + best.2 : ℚ) / 8))

/-- No word of any classifier vocabulary occurs in the lowercased
title-plus-body text (nor, for the domain vocabularies, in the category
text). -/
def noVocabMatch (title content : String) (categories : List String) : Prop :=
  let text := lowerStr (title ++ " " ++ content)
  let catText := lowerStr (joinSpace categories)
  (∀ i ∈ SCI_FI_STRONG, strIn i text = false ∧ strIn i catText = false) ∧
    (∀ i ∈ SCI_FI_FRANCHISES, strIn i text = false ∧ strIn i catText = false) ∧
    (∀ i ∈ SCI_FI_TECH_CONTEXT, strIn i text = false) ∧
    ∀ tc ∈ TECH_CLASSIFIERS,
      (∀ k ∈ tc.2.keywords, strIn k text = false) ∧ ∀ k ∈ tc.2.context, strIn k text = false

instance (title content : String) (categories : List String) :
    Decidable (noVocabMatch title content categories) := by
  unfold noVocabMatch; infer_instance

/-- Spec-side restatement of the exclusion pre-check as one disjunction. -/
def excludedSpec (title content : String) : Bool :=
  let text := lowerStr (title ++ " " ++ content)
  searchPat LIST_PAGES_PAT text || (PERSON_PATS.any fun p => searchPat p text) ||
    decide (2 < (PLOT_PATS.filter fun p => searchPat p text).length)

/-! ## Data model (src/models.py, `TechEntry`) -/

structure TechEntry where
  name : String
  description : String
  url : String
  category : String
  subcategory : String := ""
  content_length : Nat := 0
  scraped_at : String := ""
  tech_type : String := ""
deriving DecidableEq

/-- Constructing a `TechEntry` runs `__post_init__`, which overwrites
`content_length` with `len(self.description)` and `scraped_at` with the
current clock reading (`now`), whatever values were passed in. -/
def TechEntry.postInit (e : TechEntry) (now : String) : TechEntry :=
  { e with content_length := e.description.length, scraped_at := now }

/-- `TechEntry(name=..., description=..., url=..., category=..., tech_type=...)`
as used by `process_page` (remaining fields defaulted, then `__post_init__`). -/
def TechEntry.make (name description url category tech_type now : String) : TechEntry :=
  TechEntry.postInit
    { name := name, description := description, url := url, category := category,
      tech_type := tech_type } now

/-! ## Checkpoint store (src/utils.py, `CheckpointManager`) -/

/-- The dictionary `checkpoint_data` built by `save_checkpoint` (serialised
verbatim to both checkpoint files; `asdict` keeps every `TechEntry` field). -/
structure CheckpointData where
  visited_pages : List String
  visited_categories : List String
  scraped_entries : List TechEntry
  failed_pages : List String
  timestamp : String
deriving DecidableEq

def mkCheckpointData (visited_pages visited_categories : Finset String)
    (scraped_entries : List TechEntry) (failed_pages : List String) (now : String) :
    CheckpointData :=
  { visited_pages := visited_pages.sort (· ≤ ·),
    visited_categories := visited_categories.sort (· ≤ ·),
    scraped_entries := scraped_entries, failed_pages := failed_pages, timestamp := now }

/-- Contents of one checkpoint file: missing, truncated (opened for writing
but the write did not complete), or completely written. -/
inductive FileState where
  | absent
  | truncated
  | complete (d : CheckpointData)
deriving DecidableEq

/-- The two files written by `save_checkpoint`:
`scraping_checkpoint.json` and `scraping_checkpoint.pkl`. -/
structure FS where
  json : FileState
  pkl : FileState
deriving DecidableEq

/-- The effect of a completed `CheckpointManager.save_checkpoint` on the two
checkpoint files. -/
def save_checkpoint_fs (d : CheckpointData) : FS :=
  { json := .complete d, pkl := .complete d }

/-- The file-system states that a crash can leave behind during
`save_checkpoint`, in program order: the JSON file is opened with mode `'w'`
(truncating it in place), written, then the pickle file is opened with mode
`'wb'` (truncating it in place) and written.  There is no
temp-file-plus-rename step in the code. -/
def save_checkpoint_crash_states (fs : FS) (d : CheckpointData) : List FS :=
  [{ fs with json := .truncated },
   { fs with json := .complete d },
   { json := .complete d, pkl := .truncated },
   { json := .complete d, pkl := .complete d }]

/-- `CheckpointManager.load_checkpoint`: prefer the pickle file, fall back to
the JSON file, return `{}` (here `none`) when neither exists; any exception
while reading (a truncated file fails to parse) is caught and also yields
`{}`. -/
def load_checkpoint_fs (fs : FS) : Option CheckpointData :=
  match fs.pkl with
  | .complete d => some d
  | .truncated => none
  | .absent =>
    match fs.json with
    | .complete d => some d
    | .truncated => none
    | .absent => none

/-- `WikipediaScraper.load_checkpoint` reconstruction of the in-memory state
from checkpoint data: lists back to sets, and
`TechEntry(**entry)` for each saved entry — which re-runs `__post_init__`
at load time `now`. -/
def loadCrawlData (d : CheckpointData) (now : String) :
    Finset String × Finset String × List TechEntry × List String :=
  (d.visited_pages.toFinset, d.visited_categories.toFinset,
    d.scraped_entries.map (fun e => TechEntry.postInit e now), d.failed_pages)

/-! ## Crawl state and environment (src/scraper.py, `WikipediaScraper`) -/

/-- `page_data` returned by `MediaWikiAPI.get_page_content`. -/
structure PageData where
  title : String
  extract : String
  url : String
  categories : List String

/-- A category member returned by `MediaWikiAPI.get_category_members`
(`ns = 0` for pages, `ns = 14` for subcategories). -/
structure Member where
  title : String
  ns : Nat
deriving DecidableEq

/-- An exception escaping a unit of work in `scrape_all`'s loop:
`interrupt` models `KeyboardInterrupt`, `error` an `Exception` caught by the
per-category handler, `fatal` a fault that escapes the inner handler. -/
inductive PySignal where
  | interrupt
  | error
  | fatal
deriving DecidableEq

/-- Oracle for the MediaWiki API and the wall clock.  `pageContent` may
raise (`Except.error`), return no page (`.ok none`) or return a page;
`catMembers` is the drained member list for a category under a limit;
`signal` injects an exception into `scrape_all`'s handling of one seed
category. -/
structure ApiEnv where
  pageContent : String → Except Unit (Option PageData)
  catMembers : String → Nat → List Member
  signal : String → Option PySignal
  now : String

/-- The configuration held by `WikipediaScraper.__init__`. -/
structure ScraperCfg where
  max_category_depth : Nat
  max_subcategories_per_category : Nat
  max_pages_per_category : Nat

/-- The scraper's shared mutable state, with ghost counters for page fetches,
member fetches, checkpoint saves and exports. -/
structure CrawlState where
  visited_pages : Finset String
  visited_categories : Finset String
  scraped_entries : List TechEntry
  failed_pages : List String
  fs : FS
  pageFetches : Nat
  memberFetches : Nat
  saves : Nat
  exports : Nat
deriving DecidableEq

/-- `WikipediaScraper.save_checkpoint`: snapshot the four data structures. -/
def save_checkpoint_st (env : ApiEnv) (s : CrawlState) : CrawlState :=
  { s with
    fs := save_checkpoint_fs
      (mkCheckpointData s.visited_pages s.visited_categories s.scraped_entries
        s.failed_pages env.now),
    saves := s.saves + 1 }

/-- `WikipediaScraper.export_data` (the export files are fresh timestamped
files; only the fact of the export matters here). -/
def export_data_st (s : CrawlState) : CrawlState := { s with exports := s.exports + 1 }

/-- `WikipediaScraper.process_page`: under the lock, return early when the
title was already visited, otherwise mark it visited; then fetch, apply the
length, exclusion, classification and confidence gates, and construct at most
one entry.  Any exception from the fetch appends the title to
`failed_pages`. -/
def process_page (env : ApiEnv) (s : CrawlState) (page_title category : String) :
    List TechEntry × CrawlState :=
  if page_title ∈ s.visited_pages then ([], s)
  else
    let s1 := { s with visited_pages := insert page_title s.visited_pages }
    match env.pageContent page_title with
    | .error _ =>
      ([], { s1 with pageFetches := s1.pageFetches + 1,
                     failed_pages := s1.failed_pages ++ [page_title] })
    | .ok none => ([], { s1 with pageFetches := s1.pageFetches + 1 })
    | .ok (some pd) =>
      let s2 := { s1 with pageFetches := s1.pageFetches + 1 }
      if pd.extract.length < MIN_CONTENT_LENGTH then ([], s2)
      else if is_excluded_content pd.title pd.extract then ([], s2)
      else if (is_sci_fi_technology pd.title pd.extract pd.categories).1 = false then ([], s2)
      else if (is_sci_fi_technology pd.title pd.extract pd.categories).2.2 <
          MIN_CONFIDENCE_SCORE then ([], s2)
      else
        ([TechEntry.make pd.title pd.extract pd.url category
            (is_sci_fi_technology pd.title pd.extract pd.categories).2.1 env.now], s2)

/-- Handling of one completed page in `scrape_category`'s fan-out: a
non-empty result is appended to `scraped_entries`, `entries_found` is
accumulated, and every time `entries_found % 10 == 0` after an acceptance a
checkpoint is saved. -/
def page_step (env : ApiEnv) (category : String) (s : CrawlState) (entries_found : Nat)
    (p : Member) : CrawlState × Nat :=
  let r := process_page env s p.title category
  if r.1.isEmpty then (r.2, entries_found)
  else
    let s2 := { r.2 with scraped_entries := r.2.scraped_entries ++ r.1 }
    let ef2 := entries_found + r.1.length
    (if ef2 % 10 == 0 then save_checkpoint_st env s2 else s2, ef2)

/-- The page fan-out of `scrape_category` (sequenced). -/
def process_pages (env : ApiEnv) (category : String) :
    List Member → CrawlState → Nat → CrawlState × Nat
  | [], s, entries_found => (s, entries_found)
  | p :: rest, s, entries_found =>
    let st := page_step env category s entries_found p
    process_pages env category rest st.1 st.2

/-- The sequential subcategory loop of `scrape_category`: filter by
`is_relevant_subcategory`, recurse (the recursive call is the parameter `f`),
and accumulate the returned entry counts. -/
def subcat_fold (f : CrawlState → String → Nat × CrawlState) :
    List Member → Nat × CrawlState → Nat × CrawlState
  | [], acc => acc
  | m :: rest, acc =>
    if is_relevant_subcategory m.title then
      subcat_fold f rest (acc.1 + (f acc.2 m.title).1, (f acc.2 m.title).2)
    else subcat_fold f rest acc

/-- `WikipediaScraper.scrape_category`, with an explicit fuel argument for
the recursion (the code's recursion is bounded because the depth grows by 1
per level and is cut off at `max_category_depth`; any
`fuel > max_category_depth - current_depth` is enough fuel).  Returns
`(entries_found, state)`. -/
def scrape_category (env : ApiEnv) (cfg : ScraperCfg) :
    Nat → CrawlState → String → Nat → Nat → Nat × CrawlState
  | 0, s, _, _, _ => (0, s)
  | fuel + 1, s, category_name, max_pages, current_depth =>
    let normalized := replaceStr category_name "Category:" ""
    if cfg.max_category_depth < current_depth then (0, s)
    else
      let key := normalized ++ "_" ++ toString current_depth
      if key ∈ s.visited_categories then (0, s)
      else
        let s1 := { s with visited_categories := insert key s.visited_categories }
        if 0 < current_depth ∧ normalized ∈ s1.visited_categories then (0, s1)
        else
          let s2 := { s1 with memberFetches := s1.memberFetches + 1 }
          let members := env.catMembers normalized (min max_pages cfg.max_pages_per_category)
          if members.isEmpty then (0, s2)
          else
            let pages := members.filter fun m => m.ns == 0
            let subcats :=
              (members.filter fun m => m.ns == 14).take cfg.max_subcategories_per_category
            let pr := process_pages env category_name pages s2 0
            if current_depth < cfg.max_category_depth then
              subcat_fold
                (fun st ttl =>
                  scrape_category env cfg fuel st ttl
                    (min 300 (cfg.max_pages_per_category / 2)) (current_depth + 1))
                subcats (pr.2, pr.1)
            else (pr.2, pr.1)

/-- The seed-category loop of `WikipediaScraper.scrape_all`: stop once
`max_entries` is reached; a `KeyboardInterrupt` or a fault escaping the
per-category handler aborts the loop, a caught per-category `Exception` moves
on to the next seed; after a successful seed category the loop saves a
checkpoint.  Returns the abort signal (if any) with the loop's final
state. -/
def scrape_all_loop (env : ApiEnv) (cfg : ScraperCfg) (fuel : Nat) :
    List String → CrawlState → Nat → Option PySignal × CrawlState
  | [], s, _ => (none, s)
  | category :: rest, s, max_entries =>
    if max_entries ≤ s.scraped_entries.length then (none, s)
    else
      match env.signal category with
      | some .interrupt => (some .interrupt, s)
      | some .fatal => (some .fatal, s)
      | some .error => scrape_all_loop env cfg fuel rest s max_entries
      | none =>
        let r := scrape_category env cfg fuel s category 500 0
        scrape_all_loop env cfg fuel rest (save_checkpoint_st env r.2) max_entries

/-- `WikipediaScraper.scrape_all`: run the seed loop inside
`try/except KeyboardInterrupt/except Exception/finally`; the `finally` block
saves a final checkpoint and exports, whatever the loop's outcome was. -/
def scrape_all (env : ApiEnv) (cfg : ScraperCfg) (fuel : Nat) (cats : List String)
    (s : CrawlState) (max_entries : Nat) : CrawlState :=
  let r := scrape_all_loop env cfg fuel cats s max_entries
  export_data_st (save_checkpoint_st env r.2)

/-! ## Statistics (src/utils.py, `DataExporter.generate_statistics`) -/

/-- Python dict update `d[k] = d.get(k, 0) + 1`, insertion-ordered. -/
def bumpCount : List (String × Nat) → String → List (String × Nat)
  | [], k => [(k, 1)]
  | (a, n) :: rest, k => if a = k then (a, n + 1) :: rest else (a, n) :: bumpCount rest k

def countBy (f : TechEntry → String) (entries : List TechEntry) : List (String × Nat) :=
  entries.foldl (fun acc e => bumpCount acc (f e)) []

/-- Python `min(l)` with the code's `if l else 0` guard. -/
def pyMin : List Nat → Nat
  | [] => 0
  | x :: xs => xs.foldl Nat.min x

/-- Python `max(l)` with the code's `if l else 0` guard. -/
def pyMax : List Nat → Nat
  | [] => 0
  | x :: xs => xs.foldl Nat.max x

structure Stats where
  total_entries : Nat
  categories : List (String × Nat)
  tech_types : List (String × Nat)
  min_length : Nat
  max_length : Nat
  avg_length : ℚ
  quality_entries : Nat
  failed_pages : Nat
  processed_pages : Nat
  visited_categories : Nat
  success_rate : ℚ
deriving DecidableEq

/-- `DataExporter.generate_statistics` (`none` models the `{}` returned for
an empty entry list). -/
def generate_statistics (scraped_entries : List TechEntry)
    (visited_categories visited_pages : Finset String) (failed_pages : List String) :
    Option Stats :=
  if scraped_entries.isEmpty then none
  else
    let description_lengths := scraped_entries.map fun e => e.description.length
    some
      { total_entries := scraped_entries.length,
        categories := countBy (fun e => e.category) scraped_entries,
        tech_types := countBy (fun e => e.tech_type) scraped_entries,
        min_length := pyMin description_lengths,
        max_length := pyMax description_lengths,
        avg_length :=
          if description_lengths.isEmpty then 0
          else (description_lengths.sum : ℚ) / description_lengths.length,
        quality_entries :=
          (scraped_entries.filter fun e => 100 ≤ e.description.length).length,
        failed_pages := failed_pages.length,
        processed_pages := visited_pages.card,
        visited_categories := visited_categories.card,
        success_rate :=
          ((visited_pages.card : ℚ) - failed_pages.length) /
            (max visited_pages.card 1 : ℚ) * 100 }

/-! ## Concrete fixtures used by the closed instance theorems -/

/-- An API oracle with no pages, no category members, and a
`KeyboardInterrupt` raised at every seed category. -/
def envW : ApiEnv :=
  { pageContent := fun _ => .ok none,
    catMembers := fun _ _ => [],
    signal := fun _ => some .interrupt,
    now := "t1" }

def cfgW : ScraperCfg := ⟨5, 5, 5000⟩

/-- The empty crawl state (fresh scraper, no checkpoint on disk). -/
def s0 : CrawlState :=
  { visited_pages := ∅, visited_categories := ∅, scraped_entries := [], failed_pages := [],
    fs := ⟨.absent, .absent⟩, pageFetches := 0, memberFetches := 0, saves := 0, exports := 0 }

/-- State in which the composite key of category `Foo` at depth 0 is already
visited. -/
def sKeyW : CrawlState := { s0 with visited_categories := {"Foo_0"} }

/-- State in which page `P` is already visited. -/
def sPageW : CrawlState := { s0 with visited_pages := {"P"} }

def entryW : TechEntry := TechEntry.make "N" "D" "u" "c" "weapon" "t0"

def d0W : CheckpointData := ⟨["A"], [], [], [], "t0"⟩

def d1W : CheckpointData := ⟨["A", "B"], [], [], [], "t1"⟩

/-- Both checkpoint files hold the previously saved snapshot `d0W`. -/
def fs0W : FS := ⟨.complete d0W, .complete d0W⟩

def entry50 : TechEntry := TechEntry.make "E1" ⟨List.replicate 50 'a'⟩ "u" "c" "weapon" "t"

def entry150 : TechEntry := TechEntry.make "E2" ⟨List.replicate 150 'a'⟩ "u" "c" "weapon" "t"

def entry300 : TechEntry := TechEntry.make "E3" ⟨List.replicate 300 'a'⟩ "u" "c" "device" "t"

/-- Composite `name_depth` keys: the only strings `scrape_category` ever adds
to the visited-categories set. -/
def compositeKey (x : String) : Prop := ∃ b n, x = b ++ "_" ++ toString (n : Nat)

/-- The monotone facts every engine step preserves: the visited-categories
set and the member-fetch counter only grow, and every new visited-categories
element is a composite key. -/
def Evolves (s t : CrawlState) : Prop :=
  s.visited_categories ⊆ t.visited_categories ∧
    s.memberFetches ≤ t.memberFetches ∧
    ∀ x ∈ t.visited_categories, x ∈ s.visited_categories ∨ compositeKey x

/-! ## Helper lemmas -/

lemma map_ite_sum {α : Type} (p : α → Bool) (c : Nat) (l : List α) :
    (l.map fun k => if p k then c else 0).sum = c * (l.filter p).length := by
  induction l with
  | nil => simp
  | cons x t ih =>
    by_cases h : p x
    · simp [h, ih]
      ring
    · simp [h, ih]

lemma filter_length_pos_iff_any {α : Type} (p : α → Bool) (l : List α) :
    0 < (l.filter p).length ↔ l.any p = true := by
  induction l with
  | nil => simp
  | cons x t ih => by_cases h : p x <;> simp [h, ih]

lemma specDomainScore_eq (text catText : String) :
    specDomainScore text catText = sciFiScore text catText := by
  unfold specDomainScore sciFiScore
  rw [map_ite_sum, map_ite_sum, map_ite_sum]

lemma specLabelScore_eq (text : String) (c : TechClassifier) :
    specLabelScore text c = typeScore text c := by
  unfold specLabelScore typeScore
  rw [map_ite_sum, map_ite_sum]
  have hco : ((c.keywords.any fun k => strIn k text) &&
      (c.context.any fun k => strIn k text)) = true ↔
      0 < (c.keywords.filter fun k => strIn k text).length ∧
        0 < (c.context.filter fun k => strIn k text).length := by
    rw [Bool.and_eq_true, filter_length_pos_iff_any, filter_length_pos_iff_any]
  rw [if_congr hco rfl rfl]
  ring

lemma specBestLabel_snd_zero :
    ∀ l : List (String × Nat), (specBestLabel l).2 = 0 → specBestLabel l = ("technology", 0) := by
  intro l
  induction l with
  | nil => intro _; rfl
  | cons x rest ih =>
    intro h
    by_cases hc : (specBestLabel rest).2 ≤ x.2 ∧ 0 < x.2
    · simp only [specBestLabel, if_pos hc] at h
      omega
    · simp only [specBestLabel, if_neg hc] at h ⊢
      exact ih h

lemma foldl_bestTC (text : String) (l : List (String × TechClassifier)) :
    ∀ init : String × Nat,
      l.foldl
        (fun best tc =>
          if best.2 < typeScore text tc.2 then (tc.1, typeScore text tc.2) else best) init =
        if (specBestLabel (l.map fun tc => (tc.1, typeScore text tc.2))).2 ≤ init.2 then init
        else specBestLabel (l.map fun tc => (tc.1, typeScore text tc.2)) := by
  induction l with
  | nil => intro init; simp [specBestLabel]
  | cons x rest ih =>
    intro init
    rw [List.foldl_cons, ih]
    simp only [List.map_cons, specBestLabel]
    split_ifs <;> first | rfl | omega

lemma bestType_eq_spec (text : String) :
    bestType text = specBestLabel (TECH_CLASSIFIERS.map fun tc => (tc.1, typeScore text tc.2)) := by
  unfold bestType
  rw [foldl_bestTC]
  by_cases h : (specBestLabel (TECH_CLASSIFIERS.map fun tc => (tc.1, typeScore text tc.2))).2 ≤
      (("technology", 0) : String × Nat).2
  · rw [if_pos h, specBestLabel_snd_zero _ (Nat.le_zero.mp h)]
  · rw [if_neg h]

lemma filter_false_of_none {α : Type} (p : α → Bool) (l : List α)
    (h : ∀ x ∈ l, p x = false) : l.filter p = [] := by
  induction l with
  | nil => rfl
  | cons x t ih =>
    rw [List.filter_cons, h x (List.mem_cons_self x t)]
    exact ih fun y hy => h y (List.mem_cons_of_mem x hy)

lemma evolves_refl (s : CrawlState) : Evolves s s :=
  ⟨Finset.Subset.refl _, Nat.le_refl _, fun _ hx => Or.inl hx⟩

lemma evolves_trans {s t u : CrawlState} (h1 : Evolves s t) (h2 : Evolves t u) : Evolves s u :=
  ⟨Finset.Subset.trans h1.1 h2.1, Nat.le_trans h1.2.1 h2.2.1,
    fun x hx => (h2.2.2 x hx).elim (fun h => (h1.2.2 x h)) Or.inr⟩

lemma process_page_vc (env : ApiEnv) (s : CrawlState) (t c : String) :
    (process_page env s t c).2.visited_categories = s.visited_categories := by
  unfold process_page
  split
  · rfl
  · split
    · rfl
    · rfl
    · split_ifs <;> rfl

lemma process_page_mf (env : ApiEnv) (s : CrawlState) (t c : String) :
    (process_page env s t c).2.memberFetches = s.memberFetches := by
  unfold process_page
  split
  · rfl
  · split
    · rfl
    · rfl
    · split_ifs <;> rfl

lemma process_page_evolves (env : ApiEnv) (s : CrawlState) (t c : String) :
    Evolves s (process_page env s t c).2 :=
  ⟨by rw [process_page_vc], by rw [process_page_mf],
    fun x hx => Or.inl (by rwa [process_page_vc] at hx)⟩

lemma save_checkpoint_evolves (env : ApiEnv) (s : CrawlState) :
    Evolves s (save_checkpoint_st env s) :=
  ⟨Finset.Subset.refl _, Nat.le_refl _, fun _ hx => Or.inl hx⟩

lemma page_step_evolves (env : ApiEnv) (cat : String) (s : CrawlState) (ef : Nat)
    (p : Member) : Evolves s (page_step env cat s ef p).1 := by
  simp only [page_step]
  by_cases h : (process_page env s p.title cat).1.isEmpty = true
  · rw [if_pos h]
    exact process_page_evolves env s p.title cat
  · rw [if_neg h]
    refine evolves_trans (process_page_evolves env s p.title cat) ?_
    by_cases h10 : ((ef + (process_page env s p.title cat).1.length) % 10 == 0) = true
    · rw [if_pos h10]
      exact save_checkpoint_evolves env _
    · rw [if_neg h10]
      exact evolves_refl _

lemma process_pages_evolves (env : ApiEnv) (cat : String) :
    ∀ (ps : List Member) (s : CrawlState) (ef : Nat),
      Evolves s (process_pages env cat ps s ef).1 := by
  intro ps
  induction ps with
  | nil => intro s ef; exact evolves_refl s
  | cons p rest ih =>
    intro s ef
    exact evolves_trans (page_step_evolves env cat s ef p)
      (ih (page_step env cat s ef p).1 (page_step env cat s ef p).2)

lemma foldl_evolves {α : Type} (f : Nat × CrawlState → α → Nat × CrawlState)
    (hf : ∀ acc m, Evolves acc.2 (f acc m).2) :
    ∀ (l : List α) (acc : Nat × CrawlState), Evolves acc.2 (l.foldl f acc).2 := by
  intro l
  induction l with
  | nil => intro acc; exact evolves_refl _
  | cons x t ih => intro acc; exact evolves_trans (hf acc x) (ih (f acc x))

/-- One-step unfolding of `scrape_category` at positive fuel. -/
lemma scrape_category_succ (env : ApiEnv) (cfg : ScraperCfg) (fuel : Nat) (s : CrawlState)
    (category_name : String) (max_pages current_depth : Nat) :
    scrape_category env cfg (fuel + 1) s category_name max_pages current_depth =
      (let normalized := replaceStr category_name "Category:" ""
       if cfg.max_category_depth < current_depth then (0, s)
       else
         let key := normalized ++ "_" ++ toString current_depth
         if key ∈ s.visited_categories then (0, s)
         else
           let s1 := { s with visited_categories := insert key s.visited_categories }
           if 0 < current_depth ∧ normalized ∈ s1.visited_categories then (0, s1)
           else
             let s2 := { s1 with memberFetches := s1.memberFetches + 1 }
             let members :=
               env.catMembers normalized (min max_pages cfg.max_pages_per_category)
             if members.isEmpty then (0, s2)
             else
               let pages := members.filter fun m => m.ns == 0
               let subcats :=
                 (members.filter fun m => m.ns == 14).take cfg.max_subcategories_per_category
               let pr := process_pages env category_name pages s2 0
               if current_depth < cfg.max_category_depth then
                 subcat_fold
                   (fun st ttl =>
                     scrape_category env cfg fuel st ttl
                       (min 300 (cfg.max_pages_per_category / 2)) (current_depth + 1))
                   subcats (pr.2, pr.1)
               else (pr.2, pr.1)) := rfl

lemma subcat_fold_evolves (f : CrawlState → String → Nat × CrawlState)
    (hf : ∀ st ttl, Evolves st (f st ttl).2) :
    ∀ (l : List Member) (acc : Nat × CrawlState), Evolves acc.2 (subcat_fold f l acc).2 := by
  intro l
  induction l with
  | nil => intro acc; exact evolves_refl _
  | cons m rest ih =>
    intro acc
    show Evolves acc.2 (subcat_fold f (m :: rest) acc).2
    unfold subcat_fold
    by_cases hrel : is_relevant_subcategory m.title = true
    · rw [if_pos hrel]
      exact evolves_trans (hf acc.2 m.title) (ih (acc.1 + (f acc.2 m.title).1, (f acc.2 m.title).2))
    · rw [if_neg hrel]
      exact ih acc

lemma scrape_category_evolves (env : ApiEnv) (cfg : ScraperCfg) :
    ∀ (fuel : Nat) (s : CrawlState) (n : String) (mp d : Nat),
      Evolves s (scrape_category env cfg fuel s n mp d).2 := by
  intro fuel
  induction fuel with
  | zero => intro s n mp d; exact evolves_refl s
  | succ fuel ih =>
    intro s n mp d
    rw [scrape_category_succ]
    simp only []
    split_ifs with h1 h2 h3 h4 h5
    · exact evolves_refl s
    · exact evolves_refl s
    · exact ⟨Finset.subset_insert _ _, Nat.le_refl _,
        fun x hx => (Finset.mem_insert.mp hx).elim
          (fun hk => Or.inr ⟨replaceStr n "Category:" "", d, hk⟩) Or.inl⟩
    · exact ⟨Finset.subset_insert _ _, Nat.le_succ _,
        fun x hx => (Finset.mem_insert.mp hx).elim
          (fun hk => Or.inr ⟨replaceStr n "Category:" "", d, hk⟩) Or.inl⟩
    · have hA : Evolves s ({ s with
          visited_categories :=
            insert (replaceStr n "Category:" "" ++ "_" ++ toString d) s.visited_categories,
          memberFetches := s.memberFetches + 1 } : CrawlState) :=
        ⟨Finset.subset_insert _ _, Nat.le_succ _,
          fun x hx => (Finset.mem_insert.mp hx).elim
            (fun hk => Or.inr ⟨replaceStr n "Category:" "", d, hk⟩) Or.inl⟩
      have hB := process_pages_evolves env n
        ((env.catMembers (replaceStr n "Category:" "")
            (min mp cfg.max_pages_per_category)).filter fun m => m.ns == 0)
        { s with
          visited_categories :=
            insert (replaceStr n "Category:" "" ++ "_" ++ toString d) s.visited_categories,
          memberFetches := s.memberFetches + 1 } 0
      have hC := subcat_fold_evolves
        (fun st ttl =>
          scrape_category env cfg fuel st ttl (min 300 (cfg.max_pages_per_category / 2)) (d + 1))
        (fun st ttl => ih st ttl (min 300 (cfg.max_pages_per_category / 2)) (d + 1))
        (((env.catMembers (replaceStr n "Category:" "")
            (min mp cfg.max_pages_per_category)).filter fun m =>
              m.ns == 14).take cfg.max_subcategories_per_category)
        ((process_pages env n
            ((env.catMembers (replaceStr n "Category:" "")
                (min mp cfg.max_pages_per_category)).filter fun m => m.ns == 0)
            { s with
              visited_categories :=
                insert (replaceStr n "Category:" "" ++ "_" ++ toString d) s.visited_categories,
              memberFetches := s.memberFetches + 1 } 0).2,
          (process_pages env n
            ((env.catMembers (replaceStr n "Category:" "")
                (min mp cfg.max_pages_per_category)).filter fun m => m.ns == 0)
            { s with
              visited_categories :=
                insert (replaceStr n "Category:" "" ++ "_" ++ toString d) s.visited_categories,
              memberFetches := s.memberFetches + 1 } 0).1)
      exact evolves_trans (evolves_trans hA hB) hC
    · refine evolves_trans
        (⟨Finset.subset_insert _ _, Nat.le_succ _,
          fun x hx => (Finset.mem_insert.mp hx).elim
            (fun hk => Or.inr ⟨replaceStr n "Category:" "", d, hk⟩) Or.inl⟩ :
          Evolves s { s with
            visited_categories :=
              insert (replaceStr n "Category:" "" ++ "_" ++ toString d) s.visited_categories,
            memberFetches := s.memberFetches + 1 })
        (process_pages_evolves env n
          ((env.catMembers (replaceStr n "Category:" "")
              (min mp cfg.max_pages_per_category)).filter fun m => m.ns == 0)
          { s with
            visited_categories :=
              insert (replaceStr n "Category:" "" ++ "_" ++ toString d) s.visited_categories,
            memberFetches := s.memberFetches + 1 } 0)

/-- A category name is never equal to its own composite `name_depth` key. -/
lemma ne_self_append_key (a : String) (n : Nat) : a ≠ a ++ "_" ++ toString n := by
  intro h
  have hone : ("_" : String).length = 1 := rfl
  have hlen : a.length = a.length + ("_" : String).length + (toString n).length := by
    conv_lhs => rw [h]
    rw [String.length_append, String.length_append]
  omega

lemma specBestLabel_all_zero :
    ∀ l : List (String × Nat), (∀ x ∈ l, x.2 = 0) → specBestLabel l = ("technology", 0) := by
  intro l
  induction l with
  | nil => intro _; rfl
  | cons x rest ih =>
    intro h
    have hx := h x (List.mem_cons_self x rest)
    simp only [specBestLabel]
    rw [if_neg fun hc => by omega]
    exact ih fun y hy => h y (List.mem_cons_of_mem x hy)

lemma bestType_all_zero (text : String)
    (h : ∀ tc ∈ TECH_CLASSIFIERS, typeScore text tc.2 = 0) :
    bestType text = ("technology", 0) := by
  unfold bestType
  rw [foldl_bestTC]
  have hz : specBestLabel (TECH_CLASSIFIERS.map fun tc => (tc.1, typeScore text tc.2)) =
      ("technology", 0) := by
    apply specBestLabel_all_zero
    intro x hx
    obtain ⟨tc, htc, rfl⟩ := List.mem_map.mp hx
    exact h tc htc
  rw [hz, if_pos (Nat.le_refl 0)]

/-- After the depth guard, the cycle guard and the bare-name guard have all
been passed, `scrape_category` proceeds from the state in which the composite
key has been marked visited and the member fetch has been performed. -/
lemma scrape_category_after_guards (env : ApiEnv) (cfg : ScraperCfg) (fuel : Nat)
    (s : CrawlState) (n : String) (mp d : Nat)
    (hd : ¬cfg.max_category_depth < d)
    (hkey : (replaceStr n "Category:" "" ++ "_" ++ toString d) ∉ s.visited_categories)
    (hbare : ¬(0 < d ∧ replaceStr n "Category:" "" ∈
      insert (replaceStr n "Category:" "" ++ "_" ++ toString d) s.visited_categories)) :
    Evolves
      { s with
        visited_categories :=
          insert (replaceStr n "Category:" "" ++ "_" ++ toString d) s.visited_categories,
        memberFetches := s.memberFetches + 1 }
      (scrape_category env cfg (fuel + 1) s n mp d).2 := by
  rw [scrape_category_succ]
  simp only []
  rw [if_neg hd, if_neg hkey, if_neg hbare]
  by_cases hmem :
      (env.catMembers (replaceStr n "Category:" "")
        (min mp cfg.max_pages_per_category)).isEmpty = true
  · rw [if_pos hmem]
    exact evolves_refl _
  · rw [if_neg hmem]
    have hB := process_pages_evolves env n
      ((env.catMembers (replaceStr n "Category:" "")
          (min mp cfg.max_pages_per_category)).filter fun m => m.ns == 0)
      { s with
        visited_categories :=
          insert (replaceStr n "Category:" "" ++ "_" ++ toString d) s.visited_categories,
        memberFetches := s.memberFetches + 1 } 0
    by_cases hdeep : d < cfg.max_category_depth
    · rw [if_pos hdeep]
      have hC := subcat_fold_evolves
        (fun st ttl =>
          scrape_category env cfg fuel st ttl (min 300 (cfg.max_pages_per_category / 2)) (d + 1))
        (fun st ttl =>
          scrape_category_evolves env cfg fuel st ttl (min 300 (cfg.max_pages_per_category / 2))
            (d + 1))
        (((env.catMembers (replaceStr n "Category:" "")
            (min mp cfg.max_pages_per_category)).filter fun m =>
              m.ns == 14).take cfg.max_subcategories_per_category)
        ((process_pages env n
            ((env.catMembers (replaceStr n "Category:" "")
                (min mp cfg.max_pages_per_category)).filter fun m => m.ns == 0)
            { s with
              visited_categories :=
                insert (replaceStr n "Category:" "" ++ "_" ++ toString d) s.visited_categories,
              memberFetches := s.memberFetches + 1 } 0).2,
          (process_pages env n
            ((env.catMembers (replaceStr n "Category:" "")
                (min mp cfg.max_pages_per_category)).filter fun m => m.ns == 0)
            { s with
              visited_categories :=
                insert (replaceStr n "Category:" "" ++ "_" ++ toString d) s.visited_categories,
              memberFetches := s.memberFetches + 1 } 0).1)
      exact evolves_trans hB hC
    · rw [if_neg hdeep]
      exact hB

/-! ## Claim theorems -/

/-- C3: the classifier agrees everywhere with the specification's reference
definition (domain score 3/4/2 per vocabulary hit, per-label keyword-weight
plus context-times-2 plus both-kinds bonus 3, strict-maximum label with
first-seen/default tie-breaking, target decision `domain ≥ 2 ∧ best ≥ 2`,
confidence `min 1 ((domain + best)/8)`); the confidence always lies in
`[0, 1]`, and on input with no vocabulary match it is `0` with a negative
target decision. -/
theorem classifier_reference_definition_C3 :
    ∀ (title content : String) (categories : List String),
      is_sci_fi_technology title content categories = classifySpec title content categories ∧
      0 ≤ (is_sci_fi_technology title content categories).2.2 ∧
      (is_sci_fi_technology title content categories).2.2 ≤ 1 ∧
      (noVocabMatch title content categories →
        (is_sci_fi_technology title content categories).1 = false ∧
        (is_sci_fi_technology title content categories).2.2 = 0) := by
  intro title content categories
  refine ⟨?_, ?_, ?_, ?_⟩
  · unfold is_sci_fi_technology classifySpec
    simp only [specLabelScore_eq, specDomainScore_eq]
    rw [← bestType_eq_spec]
  · refine le_min ?_ ?_
    · norm_num
    · positivity
  · exact min_le_left _ _
  · intro h
    obtain ⟨h1, h2, h3, h4⟩ := h
    have hsz : sciFiScore (lowerStr (title ++ " " ++ content)) (lowerStr (joinSpace categories)) =
        0 := by
      unfold sciFiScore
      rw [filter_false_of_none _ _ fun x hx => by rw [(h1 x hx).1, (h1 x hx).2]; rfl,
        filter_false_of_none _ _ fun x hx => by rw [(h2 x hx).1, (h2 x hx).2]; rfl,
        filter_false_of_none _ _ h3]
      rfl
    have hts : ∀ tc ∈ TECH_CLASSIFIERS,
        typeScore (lowerStr (title ++ " " ++ content)) tc.2 = 0 := by
      intro tc htc
      obtain ⟨hk, hc⟩ := h4 tc htc
      unfold typeScore
      rw [filter_false_of_none _ _ hk, filter_false_of_none _ _ hc]
      simp
    have hbz := bestType_all_zero (lowerStr (title ++ " " ++ content)) hts
    constructor
    · unfold is_sci_fi_technology
      simp only []
      rw [hsz, hbz]
      rfl
    · unfold is_sci_fi_technology
      simp only []
      rw [hsz, hbz]
      norm_num

/-- C3 witness: on an input containing no vocabulary word the classifier
returns target `false` with confidence `0`. -/
theorem classifier_reference_definition_C3_witness :
    noVocabMatch "q" "zz" [] ∧
      (is_sci_fi_technology "q" "zz" []).1 = false ∧
      (is_sci_fi_technology "q" "zz" []).2.2 = 0 :=
  ⟨by decide, (classifier_reference_definition_C3 "q" "zz" []).2.2.2 (by decide)⟩

/-- C4: `is_excluded_content` is exactly the disjunction: list/index-page
match, or at least one biographical-person pattern match, or more than two
distinct plot patterns; concretely, a biographical body is excluded despite
technology vocabulary. -/
theorem exclusion_precheck_C4 :
    (∀ title content : String,
      is_excluded_content title content = excludedSpec title content) ∧
    is_excluded_content "Phaser"
      "The phaser is a fictional energy weapon. He is an actor who portrayed by someone." =
      true := by
  constructor
  · intro t c
    unfold is_excluded_content excludedSpec
    simp only []
    split_ifs with h1 h2 h3 <;> simp_all
  · decide

/-- C5: `process_page` adds the title to the visited set (exactly that, in
every branch, before any fetch), and when the title was already visited it
returns zero entries, leaves the state untouched and performs no page
fetch. -/
theorem process_page_at_most_once_C5 :
    ∀ (env : ApiEnv) (s : CrawlState) (page_title category : String),
      (process_page env s page_title category).2.visited_pages =
        insert page_title s.visited_pages ∧
      (page_title ∈ s.visited_pages →
        process_page env s page_title category = ([], s) ∧
        (process_page env s page_title category).2.pageFetches = s.pageFetches) := by
  intro env s t c
  constructor
  · unfold process_page
    by_cases h : t ∈ s.visited_pages
    · rw [if_pos h, Finset.insert_eq_self.mpr h]
    · rw [if_neg h]
      split
      · rfl
      · rfl
      · split_ifs <;> rfl
  · intro h
    have he : process_page env s t c = ([], s) := by
      unfold process_page
      rw [if_pos h]
    exact ⟨he, by rw [he]⟩

/-- C5 witness: a second call on an already-visited title returns no entries,
changes nothing and fetches nothing. -/
theorem process_page_at_most_once_C5_witness :
    ("P" ∈ sPageW.visited_pages) ∧
      process_page envW sPageW "P" "C" = ([], sPageW) ∧
      (process_page envW sPageW "P" "C").2.pageFetches = sPageW.pageFetches :=
  ⟨by decide, ((process_page_at_most_once_C5 envW sPageW "P" "C").2 (by decide)).1,
    ((process_page_at_most_once_C5 envW sPageW "P" "C").2 (by decide)).2⟩

/-- C6: when the composite `name_depth` key is already visited,
`scrape_category` returns `(0, s)` — zero entries, unchanged state, no member
fetch; and within the depth bound (with fuel) a first call records that key
in the visited-categories set of its final state. -/
theorem category_idempotence_C6 :
    ∀ (env : ApiEnv) (cfg : ScraperCfg) (fuel : Nat) (s : CrawlState)
      (category_name : String) (max_pages current_depth : Nat),
      ((replaceStr category_name "Category:" "" ++ "_" ++ toString current_depth) ∈
          s.visited_categories →
        scrape_category env cfg fuel s category_name max_pages current_depth = (0, s)) ∧
      (current_depth ≤ cfg.max_category_depth → 1 ≤ fuel →
        (replaceStr category_name "Category:" "" ++ "_" ++ toString current_depth) ∈
          (scrape_category env cfg fuel s category_name max_pages
            current_depth).2.visited_categories) := by
  intro env cfg fuel s n mp d
  constructor
  · intro hkey
    cases fuel with
    | zero => rfl
    | succ fuel =>
      rw [scrape_category_succ]
      simp only []
      by_cases hd : cfg.max_category_depth < d
      · rw [if_pos hd]
      · rw [if_neg hd, if_pos hkey]
  · intro hd hfuel
    obtain ⟨k, rfl⟩ : ∃ k, fuel = k + 1 := ⟨fuel - 1, by omega⟩
    by_cases hkey : (replaceStr n "Category:" "" ++ "_" ++ toString d) ∈ s.visited_categories
    · rw [scrape_category_succ]
      simp only []
      rw [if_neg (by omega : ¬cfg.max_category_depth < d), if_pos hkey]
      exact hkey
    · by_cases hbare : 0 < d ∧ replaceStr n "Category:" "" ∈
          insert (replaceStr n "Category:" "" ++ "_" ++ toString d) s.visited_categories
      · rw [scrape_category_succ]
        simp only []
        rw [if_neg (by omega : ¬cfg.max_category_depth < d), if_neg hkey, if_pos hbare]
        exact Finset.mem_insert_self _ _
      · exact (scrape_category_after_guards env cfg k s n mp d
          (by omega) hkey hbare).1 (Finset.mem_insert_self _ _)

/-- C6 witness: with `Foo_0` already visited the call is the identity with
zero entries, and a first call from the empty state records `Foo_0`. -/
theorem category_idempotence_C6_witness :
    (("Foo_0" : String) ∈ sKeyW.visited_categories) ∧
      scrape_category envW cfgW 1 sKeyW "Foo" 500 0 = (0, sKeyW) ∧
      (0 : Nat) ≤ cfgW.max_category_depth ∧ (1 : Nat) ≤ 1 ∧
      ("Foo_0" : String) ∈
        (scrape_category envW cfgW 1 s0 "Foo" 500 0).2.visited_categories :=
  ⟨by decide,
    (category_idempotence_C6 envW cfgW 1 sKeyW "Foo" 500 0).1 (by decide),
    by decide, Nat.le_refl 1,
    (category_idempotence_C6 envW cfgW 1 s0 "Foo" 500 0).2 (by decide) (Nat.le_refl 1)⟩

/-- C7: when the current depth exceeds the configured maximum,
`scrape_category` returns zero entries and the unchanged state — in
particular no member fetch happens and nothing is marked visited. -/
theorem depth_bound_C7 :
    ∀ (env : ApiEnv) (cfg : ScraperCfg) (fuel : Nat) (s : CrawlState)
      (category_name : String) (max_pages current_depth : Nat),
      cfg.max_category_depth < current_depth →
      scrape_category env cfg fuel s category_name max_pages current_depth = (0, s) := by
  intro env cfg fuel s n mp d h
  cases fuel with
  | zero => rfl
  | succ fuel =>
    rw [scrape_category_succ]
    simp only []
    rw [if_pos h]

/-- C7 witness: at depth 9 with maximum depth 5 the call is a no-op. -/
theorem depth_bound_C7_witness :
    cfgW.max_category_depth < 9 ∧ scrape_category envW cfgW 3 s0 "Foo" 500 9 = (0, s0) :=
  ⟨by decide, depth_bound_C7 envW cfgW 3 s0 "Foo" 500 9 (by decide)⟩

/-- C8: whatever the seed loop's outcome (normal completion, interrupt, or a
fault), `scrape_all` ends with one final checkpoint save of the loop's final
state followed by one export, preserving the accumulated entries. -/
theorem always_flush_on_exit_C8 :
    ∀ (env : ApiEnv) (cfg : ScraperCfg) (fuel : Nat) (cats : List String) (s : CrawlState)
      (max_entries : Nat) (sig : Option PySignal) (s1 : CrawlState),
      scrape_all_loop env cfg fuel cats s max_entries = (sig, s1) →
      scrape_all env cfg fuel cats s max_entries =
        export_data_st (save_checkpoint_st env s1) ∧
      (scrape_all env cfg fuel cats s max_entries).saves = s1.saves + 1 ∧
      (scrape_all env cfg fuel cats s max_entries).exports = s1.exports + 1 ∧
      (scrape_all env cfg fuel cats s max_entries).scraped_entries = s1.scraped_entries ∧
      (scrape_all env cfg fuel cats s max_entries).fs.pkl =
        FileState.complete (mkCheckpointData s1.visited_pages s1.visited_categories
          s1.scraped_entries s1.failed_pages env.now) := by
  intro env cfg fuel cats s m sig s1 h
  have he : scrape_all env cfg fuel cats s m = export_data_st (save_checkpoint_st env s1) := by
    unfold scrape_all
    rw [h]
  refine ⟨he, ?_, ?_, ?_, ?_⟩ <;> rw [he] <;> rfl

/-- C8 witness: an interrupt at the first seed category still ends in a final
save and export of the loop state. -/
theorem always_flush_on_exit_C8_witness :
    scrape_all_loop envW cfgW 1 ["A"] s0 5 = (some PySignal.interrupt, s0) ∧
      scrape_all envW cfgW 1 ["A"] s0 5 = export_data_st (save_checkpoint_st envW s0) ∧
      (scrape_all envW cfgW 1 ["A"] s0 5).saves = s0.saves + 1 ∧
      (scrape_all envW cfgW 1 ["A"] s0 5).exports = s0.exports + 1 ∧
      (scrape_all envW cfgW 1 ["A"] s0 5).scraped_entries = s0.scraped_entries ∧
      (scrape_all envW cfgW 1 ["A"] s0 5).fs.pkl =
        FileState.complete (mkCheckpointData s0.visited_pages s0.visited_categories
          s0.scraped_entries s0.failed_pages envW.now) :=
  ⟨by decide,
    always_flush_on_exit_C8 envW cfgW 1 ["A"] s0 5 (some PySignal.interrupt) s0 (by decide)⟩

/-- C9: `generate_statistics` reports the processing counters with success
rate `(processed − failed) / max(processed, 1) × 100`, and the three-entry
scenario (description lengths 50/150/300, tech types weapon/weapon/device)
yields total 3, `tech_types = {weapon: 2, device: 1}`, min 50, max 300,
average `500/3 ≈ 166.67`, and 2 quality entries. -/
theorem statistics_C9 :
    (∀ (entries : List TechEntry) (vc vp : Finset String) (fp : List String),
      entries ≠ [] →
      ∃ st, generate_statistics entries vc vp fp = some st ∧
        st.failed_pages = fp.length ∧ st.processed_pages = vp.card ∧
        st.visited_categories = vc.card ∧
        st.success_rate = ((vp.card : ℚ) - fp.length) / (max vp.card 1 : ℚ) * 100) ∧
    ∃ st, generate_statistics [entry50, entry150, entry300] ∅ ∅ [] = some st ∧
      st.total_entries = 3 ∧ st.tech_types = [("weapon", 2), ("device", 1)] ∧
      st.min_length = 50 ∧ st.max_length = 300 ∧ st.avg_length = 500 / 3 ∧
      |st.avg_length - 16667 / 100| < 1 / 100 ∧ st.quality_entries = 2 := by
  constructor
  · intro entries vc vp fp h
    have hne : ¬entries.isEmpty = true := by
      simpa [List.isEmpty_iff] using h
    rw [generate_statistics, if_neg hne]
    exact ⟨_, rfl, rfl, rfl, rfl, rfl⟩
  · have hm : List.map (fun e => e.description.length) [entry50, entry150, entry300] =
        [50, 150, 300] := by decide
    refine ⟨_, rfl, by decide, by decide, by decide, by decide, ?_, ?_, by decide⟩
    · show (if (List.map (fun e => e.description.length)
            [entry50, entry150, entry300]).isEmpty = true then (0 : ℚ)
          else ((((List.map (fun e => e.description.length)
              [entry50, entry150, entry300]).sum : Nat) : ℚ)) /
            ((((List.map (fun e => e.description.length)
              [entry50, entry150, entry300]).length : Nat) : ℚ))) = 500 / 3
      rw [hm]
      norm_num [List.isEmpty_cons, List.sum_cons, List.sum_nil, List.length_cons,
        List.length_nil]
    · show |(if (List.map (fun e => e.description.length)
            [entry50, entry150, entry300]).isEmpty = true then (0 : ℚ)
          else ((((List.map (fun e => e.description.length)
              [entry50, entry150, entry300]).sum : Nat) : ℚ)) /
            ((((List.map (fun e => e.description.length)
              [entry50, entry150, entry300]).length : Nat) : ℚ))) - 16667 / 100| < 1 / 100
      rw [hm, abs_lt]
      constructor <;>
        norm_num [List.isEmpty_cons, List.sum_cons, List.sum_nil, List.length_cons,
          List.length_nil]

/-- C9 witness: the counter clause applied to a concrete singleton entry
list. -/
theorem statistics_C9_witness :
    ([entry50] ≠ ([] : List TechEntry)) ∧
      ∃ st, generate_statistics [entry50] ∅ ∅ [] = some st ∧
        st.failed_pages = ([] : List String).length ∧
        st.processed_pages = (∅ : Finset String).card ∧
        st.visited_categories = (∅ : Finset String).card ∧
        st.success_rate = (((∅ : Finset String).card : ℚ) - ([] : List String).length) /
          (max (∅ : Finset String).card 1 : ℚ) * 100 :=
  ⟨by decide, statistics_C9.1 [entry50] ∅ ∅ [] (by decide)⟩

/-- C10: every element of the visited-categories set after a
`scrape_category` call is either an old element or a composite `name_depth`
key (so from the empty state only composite keys ever appear); and when the
normalized name does not coincide with any previously recorded key (and the
composite key itself is fresh, within depth and fuel), the depth-agnostic
re-check does not skip the category: its member fetch happens. -/
theorem composite_key_invariant_C10 :
    ∀ (env : ApiEnv) (cfg : ScraperCfg) (fuel : Nat) (s : CrawlState)
      (category_name : String) (max_pages current_depth : Nat),
      (∀ x ∈ s.visited_categories, compositeKey x) →
      (∀ x ∈ (scrape_category env cfg fuel s category_name max_pages
          current_depth).2.visited_categories, compositeKey x) ∧
      (replaceStr category_name "Category:" "" ∉ s.visited_categories →
        (replaceStr category_name "Category:" "" ++ "_" ++ toString current_depth) ∉
          s.visited_categories →
        current_depth ≤ cfg.max_category_depth → 1 ≤ fuel →
        s.memberFetches <
          (scrape_category env cfg fuel s category_name max_pages
            current_depth).2.memberFetches) := by
  intro env cfg fuel s n mp d hinv
  constructor
  · intro x hx
    rcases (scrape_category_evolves env cfg fuel s n mp d).2.2 x hx with h | h
    · exact hinv x h
    · exact h
  · intro hbarename hkey hd hfuel
    obtain ⟨k, rfl⟩ : ∃ k, fuel = k + 1 := ⟨fuel - 1, by omega⟩
    have hbare : ¬(0 < d ∧ replaceStr n "Category:" "" ∈
        insert (replaceStr n "Category:" "" ++ "_" ++ toString d) s.visited_categories) := by
      rintro ⟨-, hmem⟩
      rcases Finset.mem_insert.mp hmem with heq | hmem2
      · exact ne_self_append_key (replaceStr n "Category:" "") d heq
      · exact hbarename hmem2
    have hg := (scrape_category_after_guards env cfg k s n mp d
      (by omega) hkey hbare).2.1
    exact Nat.lt_of_lt_of_le (Nat.lt_succ_self _) hg

/-- C10 witness: from the empty state the invariant holds afterwards and
the member fetch of a fresh category happens. -/
theorem composite_key_invariant_C10_witness :
    (∀ x ∈ s0.visited_categories, compositeKey x) ∧
      (∀ x ∈ (scrape_category envW cfgW 1 s0 "Foo" 500 0).2.visited_categories,
        compositeKey x) ∧
      s0.memberFetches < (scrape_category envW cfgW 1 s0 "Foo" 500 0).2.memberFetches := by
  have h0 : ∀ x ∈ s0.visited_categories, compositeKey x := fun x hx =>
    absurd hx (Finset.not_mem_empty x)
  have h := composite_key_invariant_C10 envW cfgW 1 s0 "Foo" 500 0 h0
  exact ⟨h0, h.1,
    h.2 (Finset.not_mem_empty _) (Finset.not_mem_empty _) (by decide) (Nat.le_refl 1)⟩

/-- C1 counterexample: a saved entry whose `scraped_at` is `"t0"` is
reconstructed by the load path with `scraped_at` reset to the load-time
clock `"t1"`, so the reloaded entry list is not field-for-field equal to the
saved one. -/
theorem checkpoint_roundtrip_C1_counterexample :
    (loadCrawlData (mkCheckpointData ∅ ∅ [entryW] [] "t0") "t1").2.2.1 ≠ [entryW] := by
  decide

/-- C1 (amended): the checkpoint round trip reconstructs the visited-pages
set, the visited-categories set and the failed-pages list exactly, and
reconstructs every accepted entry field-for-field except that
`__post_init__` recomputes `content_length` from the description (equal to
the saved value for entries built by the constructor) and resets
`scraped_at` to the load-time clock. -/
theorem checkpoint_roundtrip_C1_amended :
    ∀ (vp vc : Finset String) (entries : List TechEntry) (fp : List String)
      (nowS nowL : String),
      loadCrawlData (mkCheckpointData vp vc entries fp nowS) nowL =
        (vp, vc,
          entries.map fun e =>
            { e with content_length := e.description.length, scraped_at := nowL },
          fp) ∧
      ((∀ e ∈ entries, e.content_length = e.description.length) →
        (loadCrawlData (mkCheckpointData vp vc entries fp nowS) nowL).2.2.1 =
          entries.map fun e => { e with scraped_at := nowL }) := by
  intro vp vc entries fp nowS nowL
  constructor
  · unfold loadCrawlData mkCheckpointData
    simp only [Finset.sort_toFinset]
    rfl
  · intro h
    show (entries.map fun e => TechEntry.postInit e nowL) =
      entries.map fun e => { e with scraped_at := nowL }
    apply List.map_congr_left
    intro e he
    have hce := h e he
    unfold TechEntry.postInit
    cases e
    simp only at hce
    rw [hce]

/-- C1 witness: for a constructor-built entry the reload agrees with the
saved entry in every field except `scraped_at`. -/
theorem checkpoint_roundtrip_C1_witness :
    (∀ e ∈ [entryW], e.content_length = e.description.length) ∧
      (loadCrawlData (mkCheckpointData ∅ ∅ [entryW] [] "t0") "t1").2.2.1 =
        [entryW].map fun e => { e with scraped_at := "t1" } :=
  ⟨by decide, (checkpoint_roundtrip_C1_amended ∅ ∅ [entryW] [] "t0" "t1").2 (by decide)⟩

/-- C2 counterexample: among the crash states of `save_checkpoint` there is
one — the pickle file truncated by its opening, the write unfinished —
from which `load_checkpoint` returns the empty state rather than the
previously saved snapshot `d0W`. -/
theorem checkpoint_atomicity_C2_counterexample :
    (⟨FileState.complete d1W, FileState.truncated⟩ : FS) ∈
        save_checkpoint_crash_states fs0W d1W ∧
      load_checkpoint_fs ⟨FileState.complete d1W, FileState.truncated⟩ = none ∧
      load_checkpoint_fs fs0W = some d0W ∧
      (none : Option CheckpointData) ≠ some d0W := by
  decide

/-- C2 (amended): `save_checkpoint` truncates its target files in place (no
write-new-then-replace step); a crash while the JSON file is being rewritten
keeps the prior snapshot loadable through the pickle file, but a crash after
the pickle file is truncated and before its write completes makes
`load_checkpoint` return the empty state — the prior snapshot is lost. -/
theorem checkpoint_atomicity_C2_amended :
    ∀ (fs : FS) (d0 d : CheckpointData),
      fs.json = FileState.complete d0 → fs.pkl = FileState.complete d0 →
      (save_checkpoint_crash_states fs d).map load_checkpoint_fs =
        [some d0, some d0, none, some d] := by
  intro fs d0 d hj hp
  rcases fs with ⟨j, p⟩
  simp only at hj hp
  subst hj
  subst hp
  rfl

/-- C2 witness: the crash-state load results at a concrete prior snapshot. -/
theorem checkpoint_atomicity_C2_witness :
    fs0W.json = FileState.complete d0W ∧ fs0W.pkl = FileState.complete d0W ∧
      (save_checkpoint_crash_states fs0W d1W).map load_checkpoint_fs =
        [some d0W, some d0W, none, some d1W] :=
  ⟨rfl, rfl, checkpoint_atomicity_C2_amended fs0W d0W d1W rfl rfl⟩

/-- The repository's own smoke test (`test_structure.py`): the Lightsaber
page classifies as sci-fi technology of type `weapon`. -/
theorem classifier_sanity_lightsaber :
    (is_sci_fi_technology "Lightsaber"
      "A lightsaber is a fictional energy sword featured in the Star Wars universe."
      ["Category:Star Wars weapons"]).1 = true ∧
    (is_sci_fi_technology "Lightsaber"
      "A lightsaber is a fictional energy sword featured in the Star Wars universe."
      ["Category:Star Wars weapons"]).2.1 = "weapon" := by
  constructor
  · decide
  · decide

end SciFiScraper
